import Mathlib

/-!
Shallow embedding, in Lean 4, of the bank-statement import and transaction
classification pipeline of this repository
(source file: backend/app/services/import_service.py).

Modelling conventions, used throughout:

* Python strings are modelled as lists of characters (List Char); the helper
  palabra converts a Lean string literal.
* Python Decimal values are modelled as exact rationals (the operations the
  source performs on Decimal values - addition, subtraction, negation,
  absolute value, comparison, parsing of plain decimal literals - are exact,
  so the rational model is faithful).
* Python regular-expression search (re.search) is modelled by a small
  backtracking engine whose candidate order mirrors the CPython engine on
  the pattern constructs actually used by the source: literals, character
  classes, alternation (left first), greedy bounded and unbounded
  repetition (longest count first), lazy repetition (shortest count first),
  and capturing groups.  re.IGNORECASE is modelled by matching the
  lower-cased pattern against the lower-cased text, which is faithful for
  the patterns of the source (their literals are already lower case).
* External byte decoders are modelled as already applied: a CSV file is
  given by its UTF-8 decoded text.  date.today() is modelled as an explicit
  argument (hoy).
-/

/-- Converts a Lean string literal into the character-list representation
used for Python strings throughout this development. -/
def palabra (s : String) : List Char := s.data

/-- The characters Python str.strip removes (ASCII whitespace). -/
def esEspacioPy (c : Char) : Bool :=
  c = ' ' || c = '\t' || c = '\n' || c = '\r' || c = Char.ofNat 11 || c = Char.ofNat 12

/-- Python str.strip: drops whitespace from both ends. -/
def strip (s : List Char) : List Char :=
  ((s.dropWhile esEspacioPy).reverse.dropWhile esEspacioPy).reverse

/-- Python str.lower on one character, for the alphabet this code base
uses (ASCII letters plus the accented Spanish letters of the source). -/
def minusculaChar (c : Char) : Char :=
  if 'A' ≤ c && c ≤ 'Z' then Char.ofNat (c.toNat + 32)
  else if c = 'Á' then 'á' else if c = 'É' then 'é' else if c = 'Í' then 'í'
  else if c = 'Ó' then 'ó' else if c = 'Ú' then 'ú' else if c = 'Ñ' then 'ñ'
  else c

/-- Python str.upper on one character (same alphabet as minusculaChar). -/
def mayusculaChar (c : Char) : Char :=
  if 'a' ≤ c && c ≤ 'z' then Char.ofNat (c.toNat - 32)
  else if c = 'á' then 'Á' else if c = 'é' then 'É' else if c = 'í' then 'Í'
  else if c = 'ó' then 'Ó' else if c = 'ú' then 'Ú' else if c = 'ñ' then 'Ñ'
  else c

def minusculas (s : List Char) : List Char := s.map minusculaChar

def mayusculas (s : List Char) : List Char := s.map mayusculaChar

/-- Does the first list start the second one? -/
def listaEmpiezaCon : List Char → List Char → Bool
  | [], _ => true
  | _ :: _, [] => false
  | p :: ps, c :: cs => p = c && listaEmpiezaCon ps cs

/-- Python substring membership (aguja in pajar). -/
def esSubcadena (aguja : List Char) : List Char → Bool
  | [] => listaEmpiezaCon aguja []
  | c :: resto => listaEmpiezaCon aguja (c :: resto) || esSubcadena aguja resto

/-- concatMap written out, to keep the development self-contained. -/
def aplanadoMapa (f : α → List β) : List α → List β
  | [] => []
  | a :: l => f a ++ aplanadoMapa f l

/-- Python str.count for a single character. -/
def cuentaChar (c : Char) (s : List Char) : Nat :=
  s.foldl (fun n x => if x = c then n + 1 else n) 0

/-- Python str.split(sep) for a one-character separator: the separators
delimit fields, empty fields included. -/
def separaEn (d : Char) : List Char → List (List Char)
  | [] => [[]]
  | c :: cs =>
    match separaEn d cs with
    | [] => [[]]
    | l :: ls => if c = d then [] :: l :: ls else (c :: l) :: ls

/-- The lines a Python text file object yields: newline-separated pieces,
without a final empty piece when the text ends in a newline. -/
def lineasDe (s : List Char) : List (List Char) :=
  if s = [] then []
  else
    match (separaEn '\n' s).reverse with
    | [] :: resto => resto.reverse
    | l => l.reverse

/-- Numeric value of a digit string. -/
def natDe (s : List Char) : Nat :=
  s.foldl (fun a c => a * 10 + (c.toNat - 48)) 0

/-- A calendar date, as Python datetime.date. -/
structure Fecha where
  anio : Nat
  mes : Nat
  dia : Nat
deriving DecidableEq, Repr

def esBisiesto (a : Nat) : Bool := (a % 4 = 0 && a % 100 ≠ 0) || a % 400 = 0

def diasEnMes (a m : Nat) : Nat :=
  if m = 2 then (if esBisiesto a then 29 else 28)
  else if m = 4 || m = 6 || m = 9 || m = 11 then 30
  else 31

/-- The dates Python datetime.date accepts (year 1 to 9999). -/
def fechaValida (a m d : Nat) : Bool :=
  1 ≤ a && a ≤ 9999 && 1 ≤ m && m ≤ 12 && 1 ≤ d && d ≤ diasEnMes a m

/-- Comparison of dates as Python compares date objects (lexicographic). -/
def fechaLe (a b : Fecha) : Bool :=
  a.anio < b.anio || (a.anio = b.anio &&
    (a.mes < b.mes || (a.mes = b.mes && a.dia ≤ b.dia)))

/-! ## A small regular-expression engine

The engine returns, for a pattern and an input suffix, the list of possible
matches - each a consumed length together with its group captures - in the
exact preference order of the CPython backtracking engine for the constructs
the source uses.  re.search is then: try every start position from the left,
and at the first position with a candidate take the first candidate. -/

/-- Group captures: group index paired with the captured characters. -/
abbrev Capturas := List (Nat × List Char)

inductive Rx where
  /-- a one-character class (literal characters are singleton classes) -/
  | uno (p : Char → Bool)
  /-- a literal character sequence -/
  | lit (s : List Char)
  | sec (a b : Rx)
  /-- alternation, left alternative preferred -/
  | alt (a b : Rx)
  /-- repetition with bounds: lo to hi occurrences (hi = none means
  unbounded, capped at the input length - every repeated body of the
  source consumes at least one character, so the cap loses nothing);
  voraz selects greedy (longest first) versus lazy order -/
  | rep (lo : Nat) (hi : Option Nat) (voraz : Bool) (r : Rx)
  | grupo (i : Nat) (r : Rx)

/-- All ways of matching the body exactly k consecutive times. -/
def repiteExacto (f : List Char → List (Nat × Capturas)) : Nat → List Char → List (Nat × Capturas)
  | 0, _ => [(0, [])]
  | k + 1, cs =>
    aplanadoMapa
      (fun nc => (repiteExacto f k (cs.drop nc.1)).map
        (fun mc => (nc.1 + mc.1, nc.2 ++ mc.2)))
      (f cs)

/-- The repetition counts to try, in preference order. -/
def cuentasRep (lo tope : Nat) (voraz : Bool) : List Nat :=
  let asc := (List.range (tope + 1 - lo)).map (fun k => k + lo)
  if voraz then asc.reverse else asc

/-- Candidate matches of a pattern against a prefix of the input, in
backtracking preference order. -/
def Rx.corre : Rx → List Char → List (Nat × Capturas)
  | .uno _, [] => []
  | .uno p, c :: _ => if p c then [(1, [])] else []
  | .lit s, cs => if listaEmpiezaCon s cs then [(s.length, [])] else []
  | .sec a b, cs =>
    aplanadoMapa
      (fun nc => (Rx.corre b (cs.drop nc.1)).map
        (fun mc => (nc.1 + mc.1, nc.2 ++ mc.2)))
      (Rx.corre a cs)
  | .alt a b, cs => Rx.corre a cs ++ Rx.corre b cs
  | .rep lo hi voraz r, cs =>
    let tope := match hi with | some h => h | none => cs.length
    aplanadoMapa (fun k => repiteExacto (Rx.corre r) k cs) (cuentasRep lo tope voraz)
  | .grupo i r, cs =>
    (Rx.corre r cs).map (fun nc => (nc.1, (i, cs.take nc.1) :: nc.2))

/-- One match of re.search: absolute start, absolute end, matched text and
group captures. -/
structure Coincidencia where
  inicio : Nat
  fin : Nat
  cadena : List Char
  caps : Capturas
deriving DecidableEq

def buscaDesde (r : Rx) : List Char → Nat → Option Coincidencia
  | [], i =>
    match Rx.corre r [] with
    | nc :: _ => some ⟨i, i + nc.1, [], nc.2⟩
    | [] => none
  | c :: t, i =>
    match Rx.corre r (c :: t) with
    | nc :: _ => some ⟨i, i + nc.1, (c :: t).take nc.1, nc.2⟩
    | [] => buscaDesde r t (i + 1)

/-- Python re.search: leftmost start wins; at that start the backtracking
engine's first candidate wins. -/
def busca (r : Rx) (cs : List Char) : Option Coincidencia := buscaDesde r cs 0

/-- match.group(i): the capture of group i, none when the group did not
participate (for an out-of-range index Python raises IndexError; both are
modelled as none and the callers of this development treat none as the
source treats the caught exception). -/
def buscaGrupo (caps : Capturas) (i : Nat) : Option (List Char) :=
  (caps.find? (fun p => p.1 = i)).map (fun p => p.2)

/-- Boolean re.search, for the classifier patterns. -/
def buscaBool (r : Rx) (cs : List Char) : Bool := (busca r cs).isSome

/-! ## Character classes used by the patterns of the source -/

def esDigito (c : Char) : Bool := '0' ≤ c && c ≤ '9'

def esLetraMayus (c : Char) : Bool := 'A' ≤ c && c ≤ 'Z'

/-- The class of the RFC pattern r"[A-Z&Ñ]". -/
def esLetraRfc (c : Char) : Bool := esLetraMayus c || c = '&' || c = 'Ñ'

/-- The class r"[A-Z0-9]". -/
def esAlnumMayus (c : Char) : Bool := esLetraMayus c || esDigito c

/-- What the dot matches (anything but a newline; re.DOTALL is off). -/
def noSalto (c : Char) : Bool := c ≠ '\n'

/-- The slash-or-hyphen class of the generic date pattern. -/
def esBarraGuion (c : Char) : Bool := c = '/' || c = '-'

/-- The class r"[:\s]" of the balance patterns. -/
def esDosPuntosEsp (c : Char) : Bool := c = ':' || esEspacioPy c

/-- The class r"[\d,]" of the balance patterns. -/
def esDigitoComa (c : Char) : Bool := esDigito c || c = ','

/-- re's r"\w" on the alphabet this code base uses: ASCII alphanumerics,
the underscore, and the accented Spanish letters. -/
def esCaracterPalabra (c : Char) : Bool :=
  esDigito c || esLetraMayus c || ('a' ≤ c && c ≤ 'z') || c = '_' ||
  c = 'á' || c = 'é' || c = 'í' || c = 'ó' || c = 'ú' || c = 'ñ' ||
  c = 'Á' || c = 'É' || c = 'Í' || c = 'Ó' || c = 'Ú' || c = 'Ñ'

/-- The class r"[\w\s]". -/
def esPalabraOEsp (c : Char) : Bool := esCaracterPalabra c || esEspacioPy c

/-- The class r"[oó]". -/
def esOo (c : Char) : Bool := c = 'o' || c = 'ó'

/-- The class r"[eé]". -/
def esEe (c : Char) : Bool := c = 'e' || c = 'é'

/-- Shorthand: pattern for a literal Lean string. -/
def litp (s : String) : Rx := Rx.lit s.data

/-- Shorthand: greedy dot-star. -/
def puntoEstrella : Rx := Rx.rep 0 none true (Rx.uno noSalto)

/-! ## Python Decimal literals

decimal.Decimal(str) strips surrounding whitespace, removes grouping
underscores, and then parses an optional sign, a mantissa with at least one
digit and at most one point, and an optional decimal exponent.  The special
values (NaN, infinities), which the rational model cannot represent, are
outside the modelled grammar; no input this development evaluates produces
them. -/

/-- Reads an optional exponent part: the whole rest must be e/E, an
optional sign and at least one digit. -/
def leeExponente (s : List Char) : Option Int :=
  match s with
  | [] => some 0
  | e :: r =>
    if e = 'e' || e = 'E' then
      let (signo, r2) : Int × List Char :=
        match r with
        | c :: r2 => if c = '+' then (1, r2) else if c = '-' then (-1, r2) else (1, r)
        | [] => (1, r)
      let digs := r2.takeWhile esDigito
      if digs ≠ [] && r2.dropWhile esDigito = [] then some (signo * (natDe digs : Int))
      else none
    else none

/-- decimal.Decimal on a string, as an exact rational; none models the
InvalidOperation the constructor raises on a malformed literal. -/
def decimalDe (s : List Char) : Option ℚ :=
  let t := (strip s).filter (fun c => c ≠ '_')
  let (signo, r1) : ℚ × List Char :=
    match t with
    | c :: r => if c = '+' then (1, r) else if c = '-' then (-1, r) else (1, t)
    | [] => (1, t)
  let entero := r1.takeWhile esDigito
  let r2 := r1.dropWhile esDigito
  match r2 with
  | '.' :: r3 =>
    let frac := r3.takeWhile esDigito
    let r4 := r3.dropWhile esDigito
    if entero = [] && frac = [] then none
    else
      (leeExponente r4).map (fun ex =>
        signo * ((natDe entero : ℚ) + (natDe frac : ℚ) / 10 ^ frac.length) * 10 ^ ex)
  | _ =>
    if entero = [] then none
    else (leeExponente r2).map (fun ex => signo * (natDe entero : ℚ) * 10 ^ ex)

/-! ## Python values

The values that can appear in a parsed CSV record (and as arguments of the
row-level parsers): None, a string, an integer, a list of strings (the
DictReader rest-key value), or a date. -/

inductive PyVal where
  | pyNone
  | pyStr (s : List Char)
  | pyInt (n : Int)
  | pyLista (l : List (List Char))
  | pyFecha (d : Fecha)
deriving DecidableEq

/-- Python truthiness for the modelled values. -/
def pyTruthy : PyVal → Bool
  | .pyNone => false
  | .pyStr s => !s.isEmpty
  | .pyInt n => n ≠ 0
  | .pyLista l => !l.isEmpty
  | .pyFecha _ => true

/-- repr of a list of strings (CPython quotes each element; the quote is
written by code so the literal stays plain). -/
def comillaSimple : Char := Char.ofNat 39

def reprLista (l : List (List Char)) : List Char :=
  let citada := l.map (fun s => comillaSimple :: s ++ [comillaSimple])
  '[' :: (citada.intersperse (palabra ", ")).foldl (fun a b => a ++ b) [] ++ [']']

/-- ISO rendering of a date, as str(date) produces. -/
def cifras (ancho n : Nat) : List Char :=
  let d := (toString n).data
  List.replicate (ancho - d.length) '0' ++ d

def isoDe (d : Fecha) : List Char :=
  cifras 4 d.anio ++ '-' :: cifras 2 d.mes ++ '-' :: cifras 2 d.dia

/-- Python str() of a modelled value. -/
def pyStrDe : PyVal → List Char
  | .pyNone => palabra "None"
  | .pyStr s => s
  | .pyInt n => (toString n).data
  | .pyLista l => reprLista l
  | .pyFecha d => isoDe d

/-! ## datetime.strptime, for the formats the source uses

CPython compiles each directive to a regular expression - two-digit-first
for day and month, exactly four digits for the year, exactly two for the
two-digit year - matches the format against the string, requires the match
to reach the end of the string, and then builds the date (which validates
the day against the month).  A two-digit year of 0 to 68 means 2000 to
2068, 69 to 99 means 1969 to 1999. -/

inductive TokFmt where
  | diaT
  | mesT
  | anio4T
  | anio2T
  | litT (c : Char)
deriving DecidableEq

/-- The ways one directive can consume the head of the string, in the
preference order of its compiled regular expression, each with the bound
value it produces. -/
def alternativasTok : TokFmt → List Char → List (Nat × Option (TokFmt × Nat))
  | .litT c, x :: _ => if x = c then [(1, none)] else []
  | .litT _, [] => []
  | .diaT, a :: b :: _ =>
    (if esDigito a && esDigito b &&
        (let v := natDe [a, b]; 1 ≤ v && v ≤ 31) then
      [(2, some (.diaT, natDe [a, b]))] else []) ++
    (if '1' ≤ a && a ≤ '9' then [(1, some (.diaT, natDe [a]))] else [])
  | .diaT, [a] => if '1' ≤ a && a ≤ '9' then [(1, some (.diaT, natDe [a]))] else []
  | .diaT, [] => []
  | .mesT, a :: b :: _ =>
    (if esDigito a && esDigito b &&
        (let v := natDe [a, b]; 1 ≤ v && v ≤ 12) then
      [(2, some (.mesT, natDe [a, b]))] else []) ++
    (if '1' ≤ a && a ≤ '9' then [(1, some (.mesT, natDe [a]))] else [])
  | .mesT, [a] => if '1' ≤ a && a ≤ '9' then [(1, some (.mesT, natDe [a]))] else []
  | .mesT, [] => []
  | .anio4T, a :: b :: c :: d :: _ =>
    if esDigito a && esDigito b && esDigito c && esDigito d then
      [(4, some (.anio4T, natDe [a, b, c, d]))] else []
  | .anio4T, _ => []
  | .anio2T, a :: b :: _ =>
    if esDigito a && esDigito b then [(2, some (.anio2T, natDe [a, b]))] else []
  | .anio2T, _ => []

/-- All matches of a directive list against the string, in backtracking
preference order: consumed length and value bindings. -/
def candidatosFmt : List TokFmt → List Char → List (Nat × List (TokFmt × Nat))
  | [], _ => [(0, [])]
  | t :: ts, cs =>
    aplanadoMapa
      (fun nb =>
        (candidatosFmt ts (cs.drop nb.1)).map
          (fun mc => (nb.1 + mc.1,
            match nb.2 with | some x => x :: mc.2 | none => mc.2)))
      (alternativasTok t cs)

/-- datetime.strptime(s, fmt).date(): the first match of the compiled
pattern must consume the whole string, and the bound values must form a
valid date (year defaults to 1900, month and day to 1). -/
def strptimeLista (toks : List TokFmt) (s : List Char) : Option Fecha :=
  match candidatosFmt toks s with
  | [] => none
  | (n, enlaces) :: _ =>
    if n = s.length then
      let valorDe := fun tk => (enlaces.find? (fun p => p.1 = tk)).map (fun p => p.2)
      let anio :=
        match valorDe .anio4T with
        | some y => y
        | none =>
          match valorDe .anio2T with
          | some y => if y ≤ 68 then 2000 + y else 1900 + y
          | none => 1900
      let mes := (valorDe .mesT).getD 1
      let dia := (valorDe .diaT).getD 1
      if fechaValida anio mes dia then some ⟨anio, mes, dia⟩ else none
    else none

def fmtDiaMesAnio : List TokFmt := [.diaT, .litT '/', .mesT, .litT '/', .anio4T]
def fmtDiaMesAnioGuion : List TokFmt := [.diaT, .litT '-', .mesT, .litT '-', .anio4T]
def fmtAnioMesDia : List TokFmt := [.anio4T, .litT '/', .mesT, .litT '/', .diaT]
def fmtAnioMesDiaGuion : List TokFmt := [.anio4T, .litT '-', .mesT, .litT '-', .diaT]
def fmtDiaMesAnio2 : List TokFmt := [.diaT, .litT '/', .mesT, .litT '/', .anio2T]
def fmtMesDiaAnio : List TokFmt := [.mesT, .litT '/', .diaT, .litT '/', .anio4T]
def fmtAnioMesDiaCompacto : List TokFmt := [.anio4T, .mesT, .diaT]

/-- The ordered format list of ImportadorEstadoCuenta._parsear_fecha. -/
def formatos : List (List TokFmt) :=
  [fmtDiaMesAnio, fmtDiaMesAnioGuion, fmtAnioMesDia, fmtAnioMesDiaGuion,
   fmtDiaMesAnio2, fmtMesDiaAnio, fmtAnioMesDiaCompacto]

/-- ImportadorEstadoCuenta._parsear_fecha: a date value is returned as is;
a falsy value or a blank string gives None; otherwise the ordered format
list is tried, first success winning, and None is returned when every
format fails.  (datetime values, which the source also passes through, are
not among the modelled CSV values.) -/
def parsear_fecha (valor : PyVal) : Option Fecha :=
  match valor with
  | .pyFecha d => some d
  | v =>
    if pyTruthy v = false then none
    else
      let s := strip (pyStrDe v)
      if s = [] then none
      else formatos.findSome? (fun f => strptimeLista f s)

/-- ImportadorEstadoCuenta._parsear_monto: numeric input is converted via
str and is exact for integers; a falsy value gives 0; a string is
stripped, stripped of currency symbols and thousands separators, a
parenthesised value is negated, and a failed Decimal parse gives 0. -/
def parsear_monto (valor : PyVal) : ℚ :=
  match valor with
  | .pyInt n => (n : ℚ)
  | v =>
    if pyTruthy v = false then 0
    else
      let s0 := strip (pyStrDe v)
      let s1 := (s0.filter (fun c => c ≠ '$')).filter (fun c => c ≠ ',')
      let s2 :=
        if s1.contains '(' && s1.contains ')' then
          '-' :: (s1.filter (fun c => c ≠ '(')).filter (fun c => c ≠ ')')
        else s1
      match decimalDe s2 with
      | some q => q
      | none => 0

/-! ## ParserBancarioMX: category patterns, classifier, RFC extraction -/

def rxTransferenciaMisma : Rx := .sec (litp "transferencia") (.sec puntoEstrella (litp "misma empresa"))
def rxTraspasoCuenta : Rx := .sec (litp "traspaso") (.sec puntoEstrella (litp "cuenta"))
def rxSpeiPropia : Rx := .sec (litp "spei") (.sec puntoEstrella (litp "propia"))
def rxTransferenciaEntre : Rx := litp "transferencia entre cuentas"
def rxPagoProveedor : Rx := .sec (litp "pago") (.sec puntoEstrella (litp "proveedor"))
def rxFactura : Rx := litp "factura"
def rxPagoA : Rx := .sec (litp "pago a ") (.rep 1 none true (.uno esPalabraOEsp))
def rxTransferenciaProveedor : Rx := .sec (litp "transferencia") (.sec puntoEstrella (litp "proveedor"))
def rxNomina : Rx := .sec (litp "n") (.sec (.uno esOo) (litp "mina"))
def rxPagoSueldo : Rx := .sec (litp "pago") (.sec puntoEstrella (litp "sueldo"))
def rxSalario : Rx := litp "salario"
def rxTransferenciaEmpleado : Rx := .sec (litp "transferencia") (.sec puntoEstrella (litp "empleado"))
def rxSpeiNomin : Rx := .sec (litp "spei") (.sec puntoEstrella (litp "nomin"))
def rxSat : Rx := litp "sat"
def rxImpuesto : Rx := litp "impuesto"
def rxIva : Rx := litp "iva"
def rxIsr : Rx := litp "isr"
def rxPagoProvisional : Rx := litp "pago provisional"
def rxDeclaracion : Rx := .sec (litp "declaraci") (.sec (.uno esOo) (litp "n"))
def rxLuz : Rx := litp "luz"
def rxAgua : Rx := litp "agua"
def rxTelefono : Rx := .sec (litp "tel") (.sec (.uno esEe) (litp "fono"))
def rxInternet : Rx := litp "internet"
def rxComisionBancaria : Rx := .sec (litp "comisi") (.sec (.uno esOo) (litp "n bancaria"))
def rxCuota : Rx := litp "cuota"
def rxMantenimiento : Rx := litp "mantenimiento"
def rxPagoCliente : Rx := .sec (litp "pago") (.sec puntoEstrella (litp "cliente"))
def rxDepositoCliente : Rx := .sec (litp "deposito") (.sec puntoEstrella (litp "cliente"))
def rxTransferenciaCliente : Rx := .sec (litp "transferencia") (.sec puntoEstrella (litp "cliente"))
def rxVenta : Rx := litp "venta"
def rxCobro : Rx := litp "cobro"
def rxPagoCredito : Rx := .sec (litp "pago") (.sec puntoEstrella (.sec (litp "cr") (.sec (.uno esEe) (litp "dito"))))
def rxAmortizacion : Rx := .sec (litp "amortizaci") (.sec (.uno esOo) (litp "n"))
def rxIntereses : Rx := litp "intereses"
def rxComisionApertura : Rx := .sec (litp "comisi") (.sec (.uno esOo) (.sec (litp "n") (.sec puntoEstrella (litp "apertura"))))

/-- ParserBancarioMX.CATEGORIAS: the category table in declaration order,
each category with its ordered pattern list. -/
def CATEGORIAS : List (List Char × List Rx) :=
  [(palabra "transferencias_internas",
      [rxTransferenciaMisma, rxTraspasoCuenta, rxSpeiPropia, rxTransferenciaEntre]),
   (palabra "proveedores",
      [rxPagoProveedor, rxFactura, rxPagoA, rxTransferenciaProveedor]),
   (palabra "nominas",
      [rxNomina, rxPagoSueldo, rxSalario, rxTransferenciaEmpleado, rxSpeiNomin]),
   (palabra "impuestos",
      [rxSat, rxImpuesto, rxIva, rxIsr, rxPagoProvisional, rxDeclaracion]),
   (palabra "servicios",
      [rxLuz, rxAgua, rxTelefono, rxInternet, rxComisionBancaria, rxCuota, rxMantenimiento]),
   (palabra "clientes",
      [rxPagoCliente, rxDepositoCliente, rxTransferenciaCliente, rxVenta, rxCobro]),
   (palabra "financiamiento",
      [rxPagoCredito, rxAmortizacion, rxIntereses, rxComisionApertura])]

/-- The loop of ParserBancarioMX.categorizar_transaccion: first category,
in declaration order, any of whose patterns matches. -/
def categorizarAux : List (List Char × List Rx) → List Char → List Char
  | [], _ => palabra "otros"
  | (cat, patrones) :: resto, d =>
    if patrones.any (fun rx => buscaBool rx d) then cat else categorizarAux resto d

/-- ParserBancarioMX.categorizar_transaccion. -/
def categorizar_transaccion (descripcion : List Char) : List Char :=
  categorizarAux CATEGORIAS (minusculas descripcion)

/-- The RFC pattern: 3 or 4 upper-case letters (ampersand and enye
included), 6 digits, 2 or 3 upper-case alphanumerics, every quantifier
greedy. -/
def patronRfc : Rx :=
  .sec (.rep 3 (some 4) true (.uno esLetraRfc))
    (.sec (.rep 6 (some 6) true (.uno esDigito))
      (.rep 2 (some 3) true (.uno esAlnumMayus)))

/-- ParserBancarioMX.extraer_rfc: search the pattern in the upper-cased
text; keep the match only when its total length is 12 or 13. -/
def extraer_rfc (texto : List Char) : Option (List Char) :=
  match busca patronRfc (mayusculas texto) with
  | some m => if m.cadena.length = 12 ∨ m.cadena.length = 13 then some m.cadena else none
  | none => none

/-! ## Balance extraction from raw text

The opening-balance patterns of the source are

  r"saldo\s*(anterior|inicial|previous)[:\s]+\$?([\d,]+\.\d\x7b2\x7d)"
  r"saldo\s*al\s*inicio[:\s]+\$?([\d,]+\.\d\x7b2\x7d)"

and the closing-balance ones replace the first alternation by
(final|actual|current) and the second literal by "saldo al corte".  The
code reads match.group(2) under a bare except: in the second pattern of
each pair the amount is group 1 and group 2 does not exist, so the
IndexError is caught and that pattern never produces a value; the model
keeps group 2 as the extracted index, faithfully yielding none there. -/

/-- The amount part: one or more digits-or-commas, a point, two digits. -/
def trozoImporte : Rx :=
  .sec (.rep 1 none true (.uno esDigitoComa)) (.sec (.uno (fun c => c = '.')) (.rep 2 (some 2) true (.uno esDigito)))

/-- Common tail: separators, optional currency sign, the amount as group 2. -/
def colaImporte : Rx :=
  .sec (.rep 1 none true (.uno esDosPuntosEsp))
    (.sec (.rep 0 (some 1) true (.uno (fun c => c = '$'))) (.grupo 2 trozoImporte))

/-- Common tail for the second pattern of each pair, whose amount group is
group 1 (so the group-2 read fails). -/
def colaImporteG1 : Rx :=
  .sec (.rep 1 none true (.uno esDosPuntosEsp))
    (.sec (.rep 0 (some 1) true (.uno (fun c => c = '$'))) (.grupo 1 trozoImporte))

def patronSaldoInicial1 : Rx :=
  .sec (litp "saldo")
    (.sec (.rep 0 none true (.uno esEspacioPy))
      (.sec (.grupo 1 (.alt (litp "anterior") (.alt (litp "inicial") (litp "previous"))))
        colaImporte))

def patronSaldoInicial2 : Rx :=
  .sec (litp "saldo")
    (.sec (.rep 0 none true (.uno esEspacioPy))
      (.sec (litp "al")
        (.sec (.rep 0 none true (.uno esEspacioPy))
          (.sec (litp "inicio") colaImporteG1))))

def patronSaldoFinal1 : Rx :=
  .sec (litp "saldo")
    (.sec (.rep 0 none true (.uno esEspacioPy))
      (.sec (.grupo 1 (.alt (litp "final") (.alt (litp "actual") (litp "current"))))
        colaImporte))

def patronSaldoFinal2 : Rx :=
  .sec (litp "saldo")
    (.sec (.rep 0 none true (.uno esEspacioPy))
      (.sec (litp "al")
        (.sec (.rep 0 none true (.uno esEspacioPy))
          (.sec (litp "corte") colaImporteG1))))

/-- The shared loop of the two balance extractors: search each pattern in
order on the lower-cased text (modelling re.IGNORECASE), read group 2,
strip commas, parse the Decimal; any failure moves to the next pattern. -/
def extraeSaldoCon (patrones : List Rx) (texto : List Char) : Option ℚ :=
  patrones.findSome? (fun p =>
    match busca p (minusculas texto) with
    | some m => (buscaGrupo m.caps 2).bind (fun g => decimalDe (g.filter (fun c => c ≠ ',')))
    | none => none)

/-- ImportadorEstadoCuenta._extraer_saldo_inicial. -/
def extraer_saldo_inicial (texto : List Char) : Option ℚ :=
  extraeSaldoCon [patronSaldoInicial1, patronSaldoInicial2] texto

/-- ImportadorEstadoCuenta._extraer_saldo_final. -/
def extraer_saldo_final (texto : List Char) : Option ℚ :=
  extraeSaldoCon [patronSaldoFinal1, patronSaldoFinal2] texto

/-! ## The data model -/

/-- TransaccionBancaria: one extracted bank movement (spec names:
date, description, reference, chargeAmount, creditAmount, balanceAfter,
cleanedDescription, suggestedCategory, isInternalTransfer,
detectedCounterpartyName, detectedTaxId). -/
structure TransaccionBancaria where
  fecha : Fecha
  descripcion : List Char
  referencia : List Char
  cargo : ℚ
  abono : ℚ
  saldo : Option ℚ := none
  concepto_limpio : List Char := []
  categoria_sugerida : List Char := []
  es_transferencia_interna : Bool := false
  beneficiario_detectado : List Char := []
  rfc_detectado : Option (List Char) := none
deriving DecidableEq, Repr

/-- EstadoCuentaImportado: the import result (spec name: Statement). -/
structure EstadoCuentaImportado where
  banco : List Char
  cuenta : List Char
  moneda : List Char
  fecha_inicio : Fecha
  fecha_fin : Fecha
  saldo_inicial : ℚ
  saldo_final : ℚ
  transacciones : List TransaccionBancaria
  total_cargos : ℚ
  total_abonos : ℚ
deriving DecidableEq, Repr

/-- EstadoCuentaImportado.balance_verificado: the computed closing balance
is within one cent of the reported one. -/
def balance_verificado (e : EstadoCuentaImportado) : Bool :=
  decide (|e.saldo_inicial + e.total_abonos - e.total_cargos - e.saldo_final| < (1 : ℚ) / 100)

/-! ## The generic PDF line parser -/

/-- Group 1 of the generic pattern: one or two digits, a slash or hyphen,
one or two digits, a slash or hyphen, two to four digits (all greedy). -/
def trozoFechaGen : Rx :=
  .grupo 1 (.sec (.rep 1 (some 2) true (.uno esDigito))
    (.sec (.uno esBarraGuion)
      (.sec (.rep 1 (some 2) true (.uno esDigito))
        (.sec (.uno esBarraGuion) (.rep 2 (some 4) true (.uno esDigito))))))

/-- Group 2 of the generic pattern: one to three digits, any number of
comma-plus-three-digit groups, a point, two digits. -/
def trozoImporteGen : Rx :=
  .grupo 2 (.sec (.rep 1 (some 3) true (.uno esDigito))
    (.sec (.rep 0 none true (.sec (.lit [',']) (.rep 3 (some 3) true (.uno esDigito))))
      (.sec (.uno (fun c => c = '.')) (.rep 2 (some 2) true (.uno esDigito)))))

/-- The generic transaction pattern: date, a lazy gap, an amount. -/
def patronGenerico : Rx := .sec trozoFechaGen (.sec (.rep 0 none false (.uno noSalto)) trozoImporteGen)

def buscaGenerico (linea : List Char) : Option Coincidencia := busca patronGenerico linea

/-- The residual text of a matched line: the part before the match,
stripped, concatenated with the part after the match, stripped - this is
the description the source builds. -/
def residualGen (linea : List Char) (m : Coincidencia) : List Char :=
  strip (linea.take m.inicio) ++ strip (linea.drop m.fin)

/-- The date-format cascade of _parsear_generico. -/
def fechaGenerica (s : List Char) : Option Fecha :=
  [fmtDiaMesAnio, fmtDiaMesAnioGuion, fmtMesDiaAnio, fmtDiaMesAnio2].findSome?
    (fun f => strptimeLista f s)

/-- One line of ImportadorEstadoCuenta._parsear_generico: search the
pattern; parse the date through the cascade (failure skips the line);
parse the amount; assign the amount to cargo when the lower-cased residual
text contains "cargo" and to abono when it contains "abono"; the suggested
category is the literal "otros". -/
def parseaGenericoLinea (linea : List Char) : Option TransaccionBancaria :=
  match buscaGenerico linea with
  | none => none
  | some m =>
    match fechaGenerica ((buscaGrupo m.caps 1).getD []) with
    | none => none
    | some fecha =>
      match (buscaGrupo m.caps 2).bind (fun g => decimalDe (g.filter (fun c => c ≠ ','))) with
      | none => none
      | some monto =>
        let descripcion := residualGen linea m
        some { fecha := fecha
               descripcion := descripcion.take 100
               referencia := []
               cargo := if esSubcadena (palabra "cargo") (minusculas descripcion) then monto else 0
               abono := if esSubcadena (palabra "abono") (minusculas descripcion) then monto else 0
               categoria_sugerida := palabra "otros" }

/-- ImportadorEstadoCuenta._parsear_generico: apply the line parser to
every newline-separated line, keeping the successes in order. -/
def parsear_generico (texto : List Char) : List TransaccionBancaria :=
  (separaEn '\n' texto).filterMap parseaGenericoLinea

/-! ## The statement builder -/

/-- Stable insertion into a list already sorted by date. -/
def insertaPorFecha (t : TransaccionBancaria) : List TransaccionBancaria → List TransaccionBancaria
  | [] => [t]
  | u :: us => if fechaLe t.fecha u.fecha then t :: u :: us else u :: insertaPorFecha t us

/-- Stable sort by date, as Python list.sort(key=lambda x: x.fecha). -/
def ordenaPorFecha : List TransaccionBancaria → List TransaccionBancaria
  | [] => []
  | t :: ts => insertaPorFecha t (ordenaPorFecha ts)

def sumaQ (l : List ℚ) : ℚ := l.foldl (fun a b => a + b) 0

/-- Python (x or y) on an optional Decimal: y when x is None or zero
(Decimal zero is falsy). -/
def pyOrQ (x : Option ℚ) (y : ℚ) : ℚ :=
  match x with
  | none => y
  | some v => if v = 0 then y else v

def transaccionNula : TransaccionBancaria :=
  { fecha := ⟨1, 1, 1⟩, descripcion := [], referencia := [], cargo := 0, abono := 0 }

/-- ImportadorEstadoCuenta._construir_estado_cuenta.  date.today() is the
explicit argument hoy.  On a non-empty list: sort by date, total the
charges and credits, extract balances from the raw text, and fall back as
the source does - Python or-falsiness included. -/
def construir_estado_cuenta (hoy : Fecha) (banco cuenta : List Char)
    (transacciones : List TransaccionBancaria) (texto_completo : List Char) :
    EstadoCuentaImportado :=
  if transacciones.isEmpty then
    { banco := banco, cuenta := cuenta, moneda := palabra "MXN"
      fecha_inicio := hoy, fecha_fin := hoy
      saldo_inicial := 0, saldo_final := 0
      transacciones := [], total_cargos := 0, total_abonos := 0 }
  else
    let ts := ordenaPorFecha transacciones
    let total_cargos := sumaQ (ts.map (fun t => t.cargo))
    let total_abonos := sumaQ (ts.map (fun t => t.abono))
    let saldo_inicial :=
      match extraer_saldo_inicial texto_completo with
      | some v => v
      | none => pyOrQ (ts.headD transaccionNula).saldo 0
    let saldo_final :=
      match extraer_saldo_final texto_completo with
      | some v => v
      | none => pyOrQ (ts.getLastD transaccionNula).saldo
          (saldo_inicial + total_abonos - total_cargos)
    { banco := banco, cuenta := cuenta, moneda := palabra "MXN"
      fecha_inicio := (ts.headD transaccionNula).fecha
      fecha_fin := (ts.getLastD transaccionNula).fecha
      saldo_inicial := saldo_inicial, saldo_final := saldo_final
      transacciones := ts
      total_cargos := total_cargos, total_abonos := total_abonos }

/-! ## The CSV importer

csv.DictReader is modelled for quote-free input (none of the evaluated
inputs contains a quote character): the first line gives the field names;
each later non-blank line is split on the detected delimiter; extra fields
go, as a list, under the rest key None; missing fields get the rest value
None.  A record is an association list from optional field name (None is
the rest key) to value, in insertion order. -/

abbrev FilaCsv := List (Option (List Char) × PyVal)

/-- The delimiter sniffing of _importar_csv: count each candidate in the
first 1000 characters, keep the first strict maximum, comma by default. -/
def detectaDelimitador (contenido : List Char) : Char :=
  let sample := contenido.take 1000
  ([',', ';', '\t', '|'].foldl
    (fun (acc : Char × Nat) d =>
      let cnt := cuentaChar d sample
      if cnt > acc.2 then (d, cnt) else acc)
    (',', 0)).1

/-- Splitting one CSV line into fields (a blank line is the empty record). -/
def camposDe (delim : Char) (linea : List Char) : List (List Char) :=
  if linea = [] then [] else separaEn delim linea

/-- Zips field names with field values, filling missing values with None. -/
def emparejaCampos : List (List Char) → List (List Char) → FilaCsv
  | [], _ => []
  | n :: ns, [] => (some n, PyVal.pyNone) :: emparejaCampos ns []
  | n :: ns, c :: cs => (some n, PyVal.pyStr c) :: emparejaCampos ns cs

/-- One DictReader record from field names and field values. -/
def filaDict (nombres campos : List (List Char)) : FilaCsv :=
  emparejaCampos nombres campos ++
    (if nombres.length < campos.length then
      [(none, PyVal.pyLista (campos.drop nombres.length))]
    else [])

/-- The records csv.DictReader yields for the decoded content: header row
first, blank rows skipped. -/
def filasCsvDe (contenido : List Char) (delim : Char) : List FilaCsv :=
  match (lineasDe contenido).map (camposDe delim) with
  | [] => []
  | encabezados :: datos => (datos.filter (fun r => r ≠ [])).map (filaDict encabezados)

/-- dict.get(key, default) on a record. -/
def filaGet (fila : FilaCsv) (clave : Option (List Char)) (defecto : PyVal) : PyVal :=
  match fila.find? (fun p => p.1 = clave) with
  | some p => p.2
  | none => defecto

/-- The message str(e) produces for the AttributeError raised by
None.lower() - CPython renders it with quote marks around NoneType and
lower; the quote marks are elided here. -/
def mensajeAtributoNone : List Char := palabra "NoneType object has no attribute lower"

/-- ImportadorEstadoCuenta._encontrar_campo: walk the record keys in
order; lower-case each key and return the first containing one of the
options as a substring.  Reaching the rest key None raises AttributeError
(key.lower() on None), modelled as the error case. -/
def encontrar_campo (claves : List (Option (List Char))) (opciones : List (List Char)) :
    Except (List Char) (Option (List Char)) :=
  match claves with
  | [] => .ok none
  | none :: _ => .error mensajeAtributoNone
  | some k :: resto =>
    if opciones.any (fun o => esSubcadena o (minusculas k)) then .ok (some k)
    else encontrar_campo resto opciones

/-- ImportadorEstadoCuenta._parsear_fila_csv: find the five field keys (an
AttributeError from the key walk propagates to the caller); without a date
or description key, or when the date does not parse, the row yields
nothing; otherwise build the transaction. -/
def parsear_fila_csv (fila : FilaCsv) : Except (List Char) (Option TransaccionBancaria) := do
  let claves := fila.map (fun p => p.1)
  let claveFecha ← encontrar_campo claves [palabra "fecha", palabra "date", palabra "f"]
  let claveDesc ← encontrar_campo claves [palabra "descripcion", palabra "concepto", palabra "description"]
  let claveCargo ← encontrar_campo claves [palabra "cargo", palabra "debito", palabra "debit"]
  let claveAbono ← encontrar_campo claves [palabra "abono", palabra "credito", palabra "credit"]
  let claveSaldo ← encontrar_campo claves [palabra "saldo", palabra "balance"]
  match claveFecha, claveDesc with
  | some kf, some kd =>
    match parsear_fecha (filaGet fila (some kf) PyVal.pyNone) with
    | none => pure none
    | some fecha =>
      let descripcion := pyStrDe (filaGet fila (some kd) (PyVal.pyStr []))
      pure (some
        { fecha := fecha
          descripcion := descripcion
          referencia := []
          cargo := parsear_monto (filaGet fila claveCargo (PyVal.pyInt 0))
          abono := parsear_monto (filaGet fila claveAbono (PyVal.pyInt 0))
          saldo := if claveSaldo.isSome then
              some (parsear_monto (filaGet fila claveSaldo PyVal.pyNone))
            else none
          categoria_sugerida := categorizar_transaccion descripcion })
  | _, _ => pure none

/-- The mutable per-instance state of ImportadorEstadoCuenta: the
diagnostics list and the parsed-transaction counter, as set by __init__
(the counter is never updated by the source). -/
structure ImportadorEstadoCuenta where
  errores : List (List Char)
  transacciones_parsed : Nat
deriving DecidableEq, Repr

/-- __init__: empty diagnostics, zero counter. -/
def importadorInicial : ImportadorEstadoCuenta := ⟨[], 0⟩

/-- The row loop of _importar_csv, threading (errores, transacciones): a
raised row exception appends a diagnostic, a None row is skipped, a
transaction is appended. -/
def pasoFilaCsv (acc : List (List Char) × List TransaccionBancaria) (fila : FilaCsv) :
    List (List Char) × List TransaccionBancaria :=
  match parsear_fila_csv fila with
  | .error e => (acc.1 ++ [palabra "Error parseando fila: " ++ e], acc.2)
  | .ok none => acc
  | .ok (some t) => (acc.1, acc.2 ++ [t])

/-- ImportadorEstadoCuenta._importar_csv on the UTF-8 decoded content:
sniff the delimiter, read the records, run the row loop starting from the
instance's current diagnostics list, and build the statement. -/
def importar_csv (hoy : Fecha) (self : ImportadorEstadoCuenta) (contenido : List Char) :
    ImportadorEstadoCuenta × EstadoCuentaImportado :=
  let delim := detectaDelimitador contenido
  let filas := filasCsvDe contenido delim
  let resultado := filas.foldl pasoFilaCsv (self.errores, [])
  ({ self with errores := resultado.1 },
   construir_estado_cuenta hoy (palabra "CSV") [] resultado.2 contenido)

/-! ## The import dispatch -/

/-- The adapter a call to ImportadorEstadoCuenta.importar selects. -/
inductive Adaptador where
  | pdf
  | csv
  | excel
deriving DecidableEq, Repr

/-- The branch structure of ImportadorEstadoCuenta.importar: lower-case
the declared type; "pdf" and "csv" select their adapters; "excel", "xlsx"
and "xls" all select the Excel adapter; anything else raises ValueError
with the unsupported-format message before any parsing.  The adapter
chosen is recorded; the work each branch then delegates to is modelled by
the corresponding importer above. -/
def importarDespacho (tipo_archivo : List Char) : Except (List Char) Adaptador :=
  let tipoMin := minusculas tipo_archivo
  if tipoMin = palabra "pdf" then .ok .pdf
  else if tipoMin = palabra "csv" then .ok .csv
  else if tipoMin = palabra "excel" ∨ tipoMin = palabra "xlsx" ∨ tipoMin = palabra "xls" then .ok .excel
  else .error (palabra "Tipo de archivo no soportado: " ++ tipo_archivo)

/-- The amount a generic-parser match carries: group 2 with the commas
removed, as a Decimal. -/
def importeGen (m : Coincidencia) : ℚ :=
  ((buscaGrupo m.caps 2).bind (fun g => decimalDe (g.filter (fun c => c ≠ ',')))).getD 0

def transGenDoble : TransaccionBancaria :=
  { fecha := ⟨2024, 1, 1⟩, descripcion := palabra "cargo abono", referencia := [],
    cargo := 5, abono := 5, categoria_sugerida := palabra "otros" }

def transGenSolo : TransaccionBancaria :=
  { fecha := ⟨2024, 1, 1⟩, descripcion := palabra "cargo", referencia := [],
    cargo := 5, abono := 0, categoria_sugerida := palabra "otros" }

def csvFilaExtra : List Char := palabra "fecha,descripcion\n01/03/2024,abc,EXTRA"

/-- The spec's opening-balance resolution order, amended as the Python
or-falsiness forces: regex extraction first; else the first transaction's
reported balance, with an absent or zero value giving 0. -/
def saldoInicialResuelto (texto : List Char) (ordenadas : List TransaccionBancaria) : ℚ :=
  match extraer_saldo_inicial texto with
  | some v => v
  | none =>
    match (ordenadas.headD transaccionNula).saldo with
    | some v => if v = 0 then 0 else v
    | none => 0

/-- The spec's closing-balance resolution order, amended likewise: regex
extraction first; else the last transaction's reported balance; when that
is absent or zero, opening plus credits minus charges. -/
def saldoFinalResuelto (texto : List Char) (ordenadas : List TransaccionBancaria)
    (totalCargos totalAbonos : ℚ) : ℚ :=
  match extraer_saldo_final texto with
  | some v => v
  | none =>
    match (ordenadas.getLastD transaccionNula).saldo with
    | some v =>
      if v = 0 then saldoInicialResuelto texto ordenadas + totalAbonos - totalCargos else v
    | none => saldoInicialResuelto texto ordenadas + totalAbonos - totalCargos

def transSaldoCero : TransaccionBancaria :=
  { fecha := ⟨2024, 1, 1⟩, descripcion := palabra "x", referencia := [],
    cargo := 0, abono := 500, saldo := some 0 }

/-! ## The claims -/

unseal Rat.mul Rat.add Rat.sub Rat.inv in
/-- C1: for every constructed Statement, balance_verificado holds exactly
when the opening balance plus the credits minus the charges is within one
cent of the closing balance; a Statement with opening 1000, credits 500,
charges 200 and closing 1300 verifies, and the same Statement with
closing 1000 does not. -/
theorem balance_verificado_ley :
    (∀ e : EstadoCuentaImportado,
      balance_verificado e = true ↔
        |e.saldo_inicial + e.total_abonos - e.total_cargos - e.saldo_final| < (1 : ℚ) / 100) ∧
    balance_verificado
      { banco := [], cuenta := [], moneda := palabra "MXN",
        fecha_inicio := ⟨2024, 3, 1⟩, fecha_fin := ⟨2024, 3, 31⟩,
        saldo_inicial := 1000, saldo_final := 1300, transacciones := [],
        total_cargos := 200, total_abonos := 500 } = true ∧
    balance_verificado
      { banco := [], cuenta := [], moneda := palabra "MXN",
        fecha_inicio := ⟨2024, 3, 1⟩, fecha_fin := ⟨2024, 3, 31⟩,
        saldo_inicial := 1000, saldo_final := 1000, transacciones := [],
        total_cargos := 200, total_abonos := 500 } = false := by
  refine ⟨fun e => ?_, by decide, by decide⟩
  simp [balance_verificado]

unseal Rat.mul Rat.add Rat.sub Rat.inv in
/-- C6: parsear_monto never raises (it is a total function into the
rationals); integer input is exact; the monetary strings of the claim
parse to 1234.56, 1234.56 and -500.00; empty, missing and unparseable
input all give 0. -/
theorem parsear_monto_contrato :
    (∀ n : Int, parsear_monto (PyVal.pyInt n) = (n : ℚ)) ∧
    parsear_monto (PyVal.pyStr (palabra "$1,234.56")) = 123456 / 100 ∧
    parsear_monto (PyVal.pyStr (palabra "1234.56")) = 123456 / 100 ∧
    parsear_monto (PyVal.pyStr (palabra "(500.00)")) = -500 ∧
    parsear_monto (PyVal.pyStr (palabra "")) = 0 ∧
    parsear_monto PyVal.pyNone = 0 ∧
    parsear_monto (PyVal.pyStr (palabra "not-a-number")) = 0 := by
  exact ⟨fun n => rfl, by decide, by decide, by decide, by decide, by decide, by decide⟩

/-- C2 counterexample: the claim says a text whose only RFC-like content
is a 14-character alphanumeric run of similar shape yields null; on the
code, the greedy pattern matches the first 13 characters of the run
ABCD010101AB9X (4 letters, 6 digits, 3 alphanumerics), the length test
passes, and the token is returned. -/
theorem extraer_rfc_catorce :
    extraer_rfc (palabra "Pago a ABCD010101AB9X por servicios")
      = some (palabra "ABCD010101AB9") ∧
    extraer_rfc (palabra "Pago a ABCD010101AB9X por servicios") ≠ none := by
  exact ⟨by decide, by decide⟩

/-- C2 amended: a returned token always has length 12 or 13; the claim's
positive example returns the 12-character token; an 11-character match is
rejected (null); but a 14-character RFC-like run yields the 13-character
prefix the pattern matches inside it, not null. -/
theorem extraer_rfc_enmendado :
    (∀ t r, extraer_rfc t = some r → r.length = 12 ∨ r.length = 13) ∧
    extraer_rfc (palabra "Pago a ABC010101AB9 por servicios")
      = some (palabra "ABC010101AB9") ∧
    extraer_rfc (palabra "ABC123456AB") = none := by
  refine ⟨?_, by decide, by decide⟩
  intro t r h
  unfold extraer_rfc at h
  split at h
  · split at h
    · next hc => injection h with h2; subst h2; exact hc
    · exact absurd h (by simp)
  · exact absurd h (by simp)

/-- C4 counterexample: the claim says only the declared types pdf, csv and
excel select an adapter and every other value fails; the declared type
xlsx is none of the three yet selects the Excel adapter. -/
theorem despacho_xlsx :
    importarDespacho (palabra "xlsx") = .ok .excel ∧
    palabra "xlsx" ≠ palabra "pdf" ∧
    palabra "xlsx" ≠ palabra "csv" ∧
    palabra "xlsx" ≠ palabra "excel" := by
  exact ⟨rfl, by decide, by decide, by decide⟩

/-- C4 amended: the dispatch lower-cases the declared type and selects an
adapter exactly for pdf, csv, excel, xlsx and xls; every other value
fails with the unsupported-format error before any parsing. -/
theorem despacho_enmendado (tipo : List Char) :
    ((∃ a, importarDespacho tipo = .ok a) ↔
      minusculas tipo ∈ [palabra "pdf", palabra "csv", palabra "excel",
        palabra "xlsx", palabra "xls"]) ∧
    (importarDespacho tipo = .error (palabra "Tipo de archivo no soportado: " ++ tipo) ↔
      minusculas tipo ∉ [palabra "pdf", palabra "csv", palabra "excel",
        palabra "xlsx", palabra "xls"]) := by
  by_cases h1 : minusculas tipo = palabra "pdf"
  · simp +decide [importarDespacho, h1]
  by_cases h2 : minusculas tipo = palabra "csv"
  · simp +decide [importarDespacho, h1, h2]
  by_cases h3 : minusculas tipo = palabra "excel"
  · simp +decide [importarDespacho, h1, h2, h3]
  by_cases h4 : minusculas tipo = palabra "xlsx"
  · simp +decide [importarDespacho, h1, h2, h3, h4]
  by_cases h5 : minusculas tipo = palabra "xls"
  · simp +decide [importarDespacho, h1, h2, h3, h4, h5]
  simp [importarDespacho, h1, h2, h3, h4, h5]

/-- C4 amended, applied at the concrete declared type docx. -/
theorem despacho_enmendado_testigo :
    ((∃ a, importarDespacho (palabra "docx") = .ok a) ↔
      minusculas (palabra "docx") ∈ [palabra "pdf", palabra "csv", palabra "excel",
        palabra "xlsx", palabra "xls"]) ∧
    (importarDespacho (palabra "docx")
        = .error (palabra "Tipo de archivo no soportado: " ++ palabra "docx") ↔
      minusculas (palabra "docx") ∉ [palabra "pdf", palabra "csv", palabra "excel",
        palabra "xlsx", palabra "xls"]) :=
  despacho_enmendado (palabra "docx")

/-- C7: the ambiguous text 03/04/2024 parses day-first (3 April 2024)
because the first format of the ordered list already succeeds, while the
later month-first format would read it as 4 March 2024; empty and
unparseable text give none rather than an error; when every format of the
list fails the parser returns none; and every successful parse is produced
by some format of the list. -/
theorem parsear_fecha_formatos :
    parsear_fecha (PyVal.pyStr (palabra "03/04/2024")) = some ⟨2024, 4, 3⟩ ∧
    strptimeLista fmtMesDiaAnio (palabra "03/04/2024") = some ⟨2024, 3, 4⟩ ∧
    parsear_fecha (PyVal.pyStr (palabra "")) = none ∧
    parsear_fecha (PyVal.pyStr (palabra "garbage")) = none ∧
    (∀ s, (∀ f ∈ formatos, strptimeLista f (strip s) = none) →
      parsear_fecha (PyVal.pyStr s) = none) ∧
    (∀ s d, parsear_fecha (PyVal.pyStr s) = some d →
      ∃ f ∈ formatos, strptimeLista f (strip s) = some d) := by
  refine ⟨by decide, by decide, by decide, by decide, ?_, ?_⟩
  · intro s h
    simp only [parsear_fecha, pyStrDe]
    split
    · rfl
    · split
      · rfl
      · exact List.findSome?_eq_none_iff.2 h
  · intro s d h
    simp only [parsear_fecha, pyStrDe] at h
    split at h
    · exact absurd h (by simp)
    · split at h
      · exact absurd h (by simp)
      · exact List.exists_of_findSome?_eq_some h

/-- The classifier loop returns the first table entry with a matching
pattern, as a List.find? over the table in declaration order. -/
theorem categorizarAux_como_find (l : List (List Char × List Rx)) (d : List Char) :
    categorizarAux l d
      = ((l.find? (fun par => par.2.any (fun rx => buscaBool rx d))).map
          (fun par => par.1)).getD (palabra "otros") := by
  induction l with
  | nil => rfl
  | cons p resto ih =>
    obtain ⟨cat, pats⟩ := p
    rw [List.find?_cons]
    by_cases hp : pats.any (fun rx => buscaBool rx d) = true
    · simp [categorizarAux, hp]
    · simp only [categorizarAux, Bool.not_eq_true] at hp ⊢
      rw [hp, ih]
      simp

/-- C8: the classifier returns the first category in declaration order
(internal transfers, suppliers, payroll, taxes, services, customers,
financing) with a matching pattern, otros when none matches, and the
description Pago de nomina a empleado classifies as nominas. -/
theorem categorizar_precedencia :
    categorizar_transaccion (palabra "Pago de nómina a empleado") = palabra "nominas" ∧
    (∀ d, categorizar_transaccion d
        = ((CATEGORIAS.find? (fun par =>
              par.2.any (fun rx => buscaBool rx (minusculas d)))).map
            (fun par => par.1)).getD (palabra "otros")) ∧
    (∀ d, (∀ par ∈ CATEGORIAS, ∀ rx ∈ par.2, buscaBool rx (minusculas d) = false) →
      categorizar_transaccion d = palabra "otros") := by
  refine ⟨by decide, fun d => categorizarAux_como_find CATEGORIAS (minusculas d), ?_⟩
  intro d h
  rw [categorizar_transaccion, categorizarAux_como_find]
  rw [List.find?_eq_none.2 (fun par hpar => by
    simp only [Bool.not_eq_true, List.any_eq_false]
    intro rx hrx
    exact h par hpar rx hrx)]
  rfl

/-- C9: in the generic PDF fallback parser, every produced transaction
assigns the matched amount to cargo exactly when the word cargo occurs in
the residual text of its line (the text outside the matched span, both
parts stripped) and to abono exactly when abono occurs there; hence a line
whose residual text contains both words gets both amounts equal to the
matched amount, and one with neither gets both equal to zero. -/
theorem generico_cargo_abono (linea : List Char) (t : TransaccionBancaria)
    (h : parseaGenericoLinea linea = some t) :
    ∃ m, buscaGenerico linea = some m ∧
      t.cargo = (if esSubcadena (palabra "cargo") (minusculas (residualGen linea m))
          then importeGen m else 0) ∧
      t.abono = (if esSubcadena (palabra "abono") (minusculas (residualGen linea m))
          then importeGen m else 0) := by
  unfold parseaGenericoLinea at h
  split at h
  · exact absurd h (by simp)
  · next m hm =>
    split at h
    · exact absurd h (by simp)
    · split at h
      · exact absurd h (by simp)
      · next monto hmonto =>
        simp only [Option.some.injEq] at h
        subst h
        refine ⟨m, hm, ?_, ?_⟩
        · unfold importeGen
          rw [hmonto]
          rfl
        · unfold importeGen
          rw [hmonto]
          rfl

unseal Rat.mul Rat.add Rat.sub Rat.inv in
/-- C9, applied at a concrete line whose residual text contains both
words: both amounts equal the matched amount 5.00. -/
theorem generico_cargo_abono_testigo :
    ∃ m, buscaGenerico (palabra "cargo abono 1/1/2024 5.00") = some m ∧
      transGenDoble.cargo
        = (if esSubcadena (palabra "cargo")
              (minusculas (residualGen (palabra "cargo abono 1/1/2024 5.00") m))
            then importeGen m else 0) ∧
      transGenDoble.abono
        = (if esSubcadena (palabra "abono")
              (minusculas (residualGen (palabra "cargo abono 1/1/2024 5.00") m))
            then importeGen m else 0) :=
  generico_cargo_abono (palabra "cargo abono 1/1/2024 5.00") transGenDoble (by decide)

/-- C10: every transaction the generic PDF fallback parser produces has
suggested category otros, whatever its description - the classifier table
is never consulted on that path. -/
theorem generico_siempre_otros (texto : List Char) (t : TransaccionBancaria)
    (h : t ∈ parsear_generico texto) : t.categoria_sugerida = palabra "otros" := by
  unfold parsear_generico at h
  rw [List.mem_filterMap] at h
  obtain ⟨linea, _, hl⟩ := h
  unfold parseaGenericoLinea at hl
  split at hl
  · exact absurd hl (by simp)
  · split at hl
    · exact absurd hl (by simp)
    · split at hl
      · exact absurd hl (by simp)
      · simp only [Option.some.injEq] at hl
        subst hl
        rfl

unseal Rat.mul Rat.add Rat.sub Rat.inv in
/-- C10, applied at a concrete extracted transaction. -/
theorem generico_siempre_otros_testigo :
    transGenSolo.categoria_sugerida = palabra "otros" :=
  generico_siempre_otros (palabra "cargo 1/1/2024 5.00") transGenSolo (by decide)

/-- One row step rewritten as appends: whatever the row produces is added
to the right of the running diagnostics and transaction lists. -/
theorem pasoFilaCsv_como_append (acc : List (List Char) × List TransaccionBancaria)
    (fila : FilaCsv) :
    pasoFilaCsv acc fila
      = (acc.1 ++ (pasoFilaCsv ([], []) fila).1, acc.2 ++ (pasoFilaCsv ([], []) fila).2) := by
  unfold pasoFilaCsv
  cases parsear_fila_csv fila with
  | error e => simp
  | ok o => cases o with
    | none => simp
    | some t => simp

/-- The row loop started from any accumulator equals the loop started
empty, appended to that accumulator. -/
theorem filasFoldComoAppend (filas : List FilaCsv) (e : List (List Char))
    (t : List TransaccionBancaria) :
    filas.foldl pasoFilaCsv (e, t)
      = (e ++ (filas.foldl pasoFilaCsv ([], [])).1,
         t ++ (filas.foldl pasoFilaCsv ([], [])).2) := by
  induction filas generalizing e t with
  | nil => simp
  | cons f fs ih =>
    simp only [List.foldl_cons]
    rw [pasoFilaCsv_como_append (e, t) f, ih, pasoFilaCsv_como_append ([], []) f]
    rw [ih ((([], []) : List (List Char) × List TransaccionBancaria).1
          ++ (pasoFilaCsv ([], []) f).1)
        ((([], []) : List (List Char) × List TransaccionBancaria).2
          ++ (pasoFilaCsv ([], []) f).2)]
    simp

/-- C3 counterexample: the claim says the diagnostics reported alongside
one import call contain exactly that call's error strings, never strings
carried over from earlier calls on the same instance.  On the code the
instance's error list is only initialised in the constructor and never
reset: importing the same malformed CSV twice on one instance reports the
first call's diagnostic again, duplicated, after the second call. -/
theorem errores_acumulan_contra :
    (importar_csv ⟨2024, 1, 1⟩ importadorInicial csvFilaExtra).1.errores
        = [palabra "Error parseando fila: " ++ mensajeAtributoNone] ∧
    (importar_csv ⟨2024, 1, 1⟩
        (importar_csv ⟨2024, 1, 1⟩ importadorInicial csvFilaExtra).1 csvFilaExtra).1.errores
        = [palabra "Error parseando fila: " ++ mensajeAtributoNone,
           palabra "Error parseando fila: " ++ mensajeAtributoNone] ∧
    (importar_csv ⟨2024, 1, 1⟩
        (importar_csv ⟨2024, 1, 1⟩ importadorInicial csvFilaExtra).1 csvFilaExtra).1.errores
      ≠ (importar_csv ⟨2024, 1, 1⟩ importadorInicial csvFilaExtra).1.errores := by
  exact ⟨by decide, by decide, by decide⟩

/-- C3 amended: the diagnostics list is initialised empty at instance
construction and never reset by an import call; each CSV import call
appends its own error strings to whatever the instance has accumulated, so
the list reported after a call is the previous contents followed by
exactly the strings of that call (only a fresh instance reports exactly
its own). -/
theorem errores_acumulan (hoy : Fecha) (self : ImportadorEstadoCuenta)
    (contenido : List Char) :
    (importar_csv hoy self contenido).1.errores
      = self.errores ++ (importar_csv hoy importadorInicial contenido).1.errores := by
  unfold importar_csv
  simp only [importadorInicial]
  rw [filasFoldComoAppend _ self.errores, filasFoldComoAppend _ ([] : List (List Char))]

/-- C3 amended, applied at an instance carrying a previous diagnostic. -/
theorem errores_acumulan_testigo :
    (importar_csv ⟨2024, 2, 2⟩ ⟨[palabra "previo"], 0⟩ csvFilaExtra).1.errores
      = (⟨[palabra "previo"], 0⟩ : ImportadorEstadoCuenta).errores
          ++ (importar_csv ⟨2024, 2, 2⟩ importadorInicial csvFilaExtra).1.errores :=
  errores_acumulan ⟨2024, 2, 2⟩ ⟨[palabra "previo"], 0⟩ csvFilaExtra

unseal Rat.mul Rat.add Rat.sub Rat.inv in
/-- C5 counterexample: the claim says the computed fallback for the
closing balance applies only when the last transaction's reported balance
is absent; here the single transaction reports the balance 0 after a
credit of 500 and the raw text is empty, yet the built statement's closing
balance is the computed 500, not the reported 0 - Python treats the zero
Decimal as falsy. -/
theorem saldo_cero_contra :
    extraer_saldo_final (palabra "") = none ∧
    transSaldoCero.saldo = some 0 ∧
    (construir_estado_cuenta ⟨2024, 1, 1⟩ (palabra "B") [] [transSaldoCero]
        (palabra "")).saldo_final = 500 ∧
    (500 : ℚ) ≠ 0 := by
  exact ⟨by decide, by decide, by decide, by decide⟩

/-- C5 amended: for every non-empty transaction list the built statement
resolves its balances in the spec's order, with a reported running balance
equal to zero treated like an absent one: (a) regex extraction from the
raw text; (b) else the first (resp. last) sorted transaction's reported
balance when present and non-zero; (c) else 0 for the opening balance, and
opening plus total credits minus total charges for the closing one. -/
theorem resolucion_saldos (hoy : Fecha) (banco cuenta texto : List Char)
    (ts : List TransaccionBancaria) (h : ts ≠ []) :
    (construir_estado_cuenta hoy banco cuenta ts texto).saldo_inicial
        = saldoInicialResuelto texto (ordenaPorFecha ts) ∧
    (construir_estado_cuenta hoy banco cuenta ts texto).saldo_final
        = saldoFinalResuelto texto (ordenaPorFecha ts)
            (sumaQ ((ordenaPorFecha ts).map (fun t => t.cargo)))
            (sumaQ ((ordenaPorFecha ts).map (fun t => t.abono))) := by
  have hne : ts.isEmpty = false := by
    cases ts with
    | nil => exact absurd rfl h
    | cons a l => rfl
  unfold construir_estado_cuenta
  simp only [hne, Bool.false_eq_true, if_false]
  constructor
  · cases hx : extraer_saldo_inicial texto with
    | none =>
      cases hy : ((ordenaPorFecha ts).headD transaccionNula).saldo with
      | none => simp only [hx, hy, saldoInicialResuelto, pyOrQ]
      | some v => simp only [hx, hy, saldoInicialResuelto, pyOrQ]
    | some v => simp only [hx, saldoInicialResuelto]
  · cases hx : extraer_saldo_final texto with
    | some v => simp only [hx, saldoFinalResuelto]
    | none =>
      cases hy : ((ordenaPorFecha ts).getLastD transaccionNula).saldo with
      | none =>
        cases hz : extraer_saldo_inicial texto with
        | some w => simp only [hx, hy, hz, saldoFinalResuelto, saldoInicialResuelto, pyOrQ]
        | none =>
          cases hw : ((ordenaPorFecha ts).headD transaccionNula).saldo with
          | none => simp only [hx, hy, hz, hw, saldoFinalResuelto, saldoInicialResuelto, pyOrQ]
          | some u => simp only [hx, hy, hz, hw, saldoFinalResuelto, saldoInicialResuelto, pyOrQ]
      | some v =>
        cases hz : extraer_saldo_inicial texto with
        | some w => simp only [hx, hy, hz, saldoFinalResuelto, saldoInicialResuelto, pyOrQ]
        | none =>
          cases hw : ((ordenaPorFecha ts).headD transaccionNula).saldo with
          | none => simp only [hx, hy, hz, hw, saldoFinalResuelto, saldoInicialResuelto, pyOrQ]
          | some u => simp only [hx, hy, hz, hw, saldoFinalResuelto, saldoInicialResuelto, pyOrQ]

unseal Rat.mul Rat.add Rat.sub Rat.inv in
/-- C5 amended, applied at the concrete zero-balance transaction. -/
theorem resolucion_saldos_testigo :
    (construir_estado_cuenta ⟨2024, 1, 1⟩ (palabra "B") [] [transSaldoCero]
        (palabra "")).saldo_inicial
      = saldoInicialResuelto (palabra "") (ordenaPorFecha [transSaldoCero]) ∧
    (construir_estado_cuenta ⟨2024, 1, 1⟩ (palabra "B") [] [transSaldoCero]
        (palabra "")).saldo_final
      = saldoFinalResuelto (palabra "") (ordenaPorFecha [transSaldoCero])
          (sumaQ ((ordenaPorFecha [transSaldoCero]).map (fun t => t.cargo)))
          (sumaQ ((ordenaPorFecha [transSaldoCero]).map (fun t => t.abono))) :=
  resolucion_saldos ⟨2024, 1, 1⟩ (palabra "B") [] (palabra "") [transSaldoCero] (by decide)
